import Mathlib

/-!
Shallow embedding of the JobLancerAI application-flow controller
(`src/app/applier/job_applier.py`, class `LinkedInJobApplier`) together with
the batch-apply caller in `src/app/server.py`.

Modelling conventions:
* Strings that the Python code lowercases (and strips) before comparing are
  stored already lowercased/stripped; the Python operator `in` on strings is
  modelled by the executable substring test `containsSub`.
* Selenium element lists returned by a `find_elements` query are modelled as
  `List` fields of a `Page` snapshot, one field per distinct query; an XPath
  union `a | b` is modelled as list concatenation (only first-match scans and
  counting thresholds consume these lists, so overlaps are harmless).
* Browser side effects (clicks, sleeps, scrolling) are irrelevant to control
  flow and are dropped; console `input()` answers, submission-success polls
  and button-search outcomes are supplied by a per-step environment.
* `final_score` values (Python floats that the code only sorts and compares)
  are modelled as integers in hundredths; only their order matters.
* Python `list.sort(key=..., reverse=True)` is a stable descending sort; it
  is modelled by `List.insertionSort` with the reflexive descending relation,
  which is extensionally the same stable descending sort.
* Handler-invocation counters (`contactCalls`, ...) and the `processed` /
  `flowStarted` fields are ghost instrumentation that record, for the
  theorems, how often a side-effecting handler was entered; each increment
  sits exactly at the corresponding call site of the source.
-/

namespace JobLancer

/-- Character-list prefix test, building block for the substring test. -/
def leadsWith : List Char → List Char → Bool
  | [], _ => true
  | _ :: _, [] => false
  | p :: ps, c :: cs => p == c && leadsWith ps cs

/-- Substring occurrence test on character lists. -/
def hasSubList (pat : List Char) : List Char → Bool
  | [] => leadsWith pat []
  | c :: cs => leadsWith pat (c :: cs) || hasSubList pat cs

/-- Model of the Python `pat in s` substring operator. -/
def containsSub (s pat : String) : Bool :=
  hasSubList pat.toList s.toList

/-- An element whose only relevant attribute is visibility. -/
structure VisElem where
  displayed : Bool
deriving DecidableEq

/-- A typed input field: visibility plus its current `value` attribute
(`get_attribute value or empty`). -/
structure Field where
  displayed : Bool
  value : String
deriving DecidableEq

/-- A radio input: visibility plus its `name` attribute; the empty string
models a missing name (falsy in Python). -/
structure Radio where
  displayed : Bool
  name : String
deriving DecidableEq

/-- A form label; `text` is stored stripped and lowercased, as the source
computes `label.text.strip().lower()`. -/
structure QLabel where
  displayed : Bool
  text : String
deriving DecidableEq

/-- A generic form input as inspected by detection method 3; `type`, `id`,
`name` are stored as the source reads them (id and name lowercased). -/
structure FormInput where
  displayed : Bool
  type : String
  id : String
  name : String
  tagName : String
deriving DecidableEq

/-- A button: visibility, lowercased text and lowercased aria-label. -/
structure Button where
  displayed : Bool
  text : String
  aria : String
deriving DecidableEq

/-- Snapshot of the DOM state of the Easy Apply modal, one field per
`find_elements` query issued by `detect_current_page_type`, the fallback
detection in `handle_easy_apply_form`, and `fill_contact_info`.
`domError` models a DOM-access exception during detection (caught by the
source and turned into the unknown classification). `pageText` is
`driver.page_source.lower()`. -/
structure Page where
  domError : Bool := false
  emailFields : List Field := []
  phoneFields : List Field := []
  fileInputs : List VisElem := []
  resumeSections : List VisElem := []
  aqHeadings : List VisElem := []
  pageText : String := ""
  radiosFormElement : List Radio := []
  radiosFieldset : List Radio := []
  selectsFormElement : List VisElem := []
  selectsWithClass : List VisElem := []
  labelsFormSection : List QLabel := []
  labelsElementClass : List QLabel := []
  labelsQMark : List QLabel := []
  labelsFormElement : List QLabel := []
  formInputs : List FormInput := []
  primaryButtons : List Button := []
  looseEmailFields : List Field := []
  loosePhoneFields : List Field := []
  looseResumeSections : List VisElem := []

/-- Detection step 1: a visible input of type email or tel. -/
def contactSignal (p : Page) : Bool :=
  (p.emailFields ++ p.phoneFields).any (·.displayed)

/-- Detection step 2: a visible file input or jobs-document-upload section. -/
def resumeSignal (p : Page) : Bool :=
  p.fileInputs.any (·.displayed) || p.resumeSections.any (·.displayed)

/-- Detection method 1: a visible element containing the Additional
Questions heading text. The five XPath alternates of the main query and the
two of the fallback query denote the same node set (the first two alternates
subsume the rest), so a single field backs both. -/
def headingSignal (p : Page) : Bool :=
  p.aqHeadings.any (·.displayed)

/-- Question phrase markers of detection method 1b. -/
def questionTextIndicators : List String :=
  ["additional questions", "additional question",
   "please answer", "please share", "please confirm",
   "how many years", "what is your", "willing to",
   "are you comfortable", "have you completed", "do you have"]

/-- Detection method 1b: a question marker in the page text while the text
mentions neither contact info nor resume. -/
def textIndicatorSignal (p : Page) : Bool :=
  questionTextIndicators.any (fun ind => containsSub p.pageText ind)
    && !(containsSub p.pageText "contact info")
    && !(containsSub p.pageText "resume")

/-- Distinct `name` attributes of the visible radios found by the method-2
query (the union of the form-element and fieldset alternates), keeping only
truthy names. -/
def visibleRadioGroupNames (p : Page) : List String :=
  ((p.radiosFormElement ++ p.radiosFieldset).filterMap
    (fun r => if r.displayed && r.name != "" then some r.name else none)).dedup

/-- Count of visible selects found by the method-2 query. -/
def visibleSelectCount (p : Page) : Nat :=
  ((p.selectsFormElement ++ p.selectsWithClass).filter (·.displayed)).length

/-- Label substrings that mark a contact or resume field, skipped by the
method-2 label scan. -/
def contactSkipWords : List String :=
  ["email", "phone", "mobile", "first name", "last name",
   "resume", "upload", "contact"]

/-- Phrasal markers that make a label question-like in method 2. -/
def questionWords : List String :=
  ["what is", "how many", "please", "willing", "confirm",
   "share", "experience", "years", "ctc", "notice period",
   "are you", "have you", "do you", "comfortable", "completed"]

/-- Method-2 test for a single label: visible, non-empty, longer than five
characters, not a contact or resume label, and question-like. -/
def isQuestionLabel (l : QLabel) : Bool :=
  l.displayed && l.text != "" && l.text.length > 5
    && !(contactSkipWords.any (fun w => containsSub l.text w))
    && (containsSub l.text "?" || questionWords.any (fun w => containsSub l.text w))

/-- The four label-query alternates of detection method 2, concatenated. -/
def detectLabels (p : Page) : List QLabel :=
  p.labelsFormSection ++ p.labelsElementClass ++ p.labelsQMark ++ p.labelsFormElement

/-- Detection method 2: at least two visible radio groups or one visible
select, together with at least one question-like label. -/
def structureSignal (p : Page) : Bool :=
  ((visibleRadioGroupNames p).length ≥ 2 || visibleSelectCount p ≥ 1)
    && ((detectLabels p).filter isQuestionLabel).length ≥ 1

/-- Method-3 test for a single form input: visible, not an email, tel or
file input by type, id or name, and a text, number, select or textarea. -/
def isNonContactInput (i : FormInput) : Bool :=
  i.displayed
    && !(i.type == "email" || i.type == "tel" || i.type == "file")
    && !(containsSub i.id "email" || containsSub i.id "phone" || containsSub i.id "tel")
    && !(containsSub i.name "email" || containsSub i.name "phone")
    && (i.type == "text" || i.type == "number"
        || i.tagName == "select" || i.tagName == "textarea")

/-- Detection method 3: at least two visible non-contact form inputs. -/
def nonContactInputSignal (p : Page) : Bool :=
  (p.formInputs.filter isNonContactInput).length ≥ 2

/-- Detection step 4: a visible primary button whose text or aria-label
contains submit. -/
def reviewSignal (p : Page) : Bool :=
  p.primaryButtons.any
    (fun b => b.displayed && (containsSub b.text "submit" || containsSub b.aria "submit"))

/-- The page-type tags returned by `detect_current_page_type`. -/
inductive SectionKind where
  | contact
  | resume
  | questions
  | review
  | unknown
deriving DecidableEq, Repr

/-- Model of `detect_current_page_type`: the classification heuristics in
source order, first match winning; a DOM-access exception yields unknown. -/
def detect_current_page_type (p : Page) : SectionKind :=
  if p.domError then .unknown
  else if contactSignal p then .contact
  else if resumeSignal p then .resume
  else if headingSignal p then .questions
  else if textIndicatorSignal p then .questions
  else if structureSignal p then .questions
  else if nonContactInputSignal p then .questions
  else if reviewSignal p then .review
  else .unknown

/-- Click behaviour of an element: whether each of the three strategies of
`safe_click` (direct click, programmatic click, scroll-into-view then
programmatic click) raises. -/
structure Elem where
  clickThrows : Bool
  scriptClickThrows : Bool
  scrollClickThrows : Bool
deriving DecidableEq

/-- The `strategies` list of `safe_click`, as throw flags in source order. -/
def strategyThrowList (e : Elem) : List Bool :=
  [e.clickThrows, e.scriptClickThrows, e.scrollClickThrows]

/-- Index of the first strategy that does not throw, scanning in order, as
the `for strategy in strategies` loop of `safe_click` does. -/
def firstNonThrow : List Bool → Option Nat
  | [] => none
  | t :: rest => if t then (firstNonThrow rest).map (· + 1) else some 0

/-- Model of `safe_click`: true exactly when some strategy ran without
throwing (the loop returns True at the first such strategy). -/
def safe_click (e : Elem) : Bool :=
  (firstNonThrow (strategyThrowList e)).isSome

/-- The applicant profile fields consumed by `fill_contact_info`; `phone` is
already digits-only normalized, as done in the constructor. -/
structure Profile where
  email : String
  phone : String
deriving DecidableEq

/-- One branch of `fill_contact_info`: `find_element` yields the first field
of the list (none raises, caught as a no-op); a displayed field whose
current value is empty is filled with the non-empty profile value. -/
def fillFirstEmpty (v : String) (fs : List Field) : List Field :=
  match fs with
  | [] => []
  | f :: rest =>
    if v != "" && f.displayed && f.value == "" then { f with value := v } :: rest
    else f :: rest

/-- Model of `fill_contact_info`: the email branch then the phone branch
(the source always returns True; the page is the observable effect). -/
def fill_contact_info (prof : Profile) (p : Page) : Page :=
  { p with
    emailFields := fillFirstEmpty prof.email p.emailFields
    phoneFields := fillFirstEmpty prof.phone p.phoneFields }

/-- Contact-info text markers of the fallback detection. -/
def contactTextIndicators : List String :=
  ["contact info", "contact information", "email address",
   "phone number", "mobile number"]

/-- Fallback branch 1 condition: loose contact fields or contact text, and
the page text does not mention additional questions. -/
def fbContactSignal (p : Page) : Bool :=
  ((p.looseEmailFields ++ p.loosePhoneFields).any (·.displayed)
      || contactTextIndicators.any (fun ind => containsSub p.pageText ind))
    && !(containsSub p.pageText "additional questions")

/-- Fallback branch 2 condition: file inputs or loose resume sections or
resume text, and no additional-questions text. -/
def fbResumeSignal (p : Page) : Bool :=
  (p.fileInputs.any (·.displayed) || p.looseResumeSections.any (·.displayed)
      || containsSub p.pageText "resume" || containsSub p.pageText "upload resume")
    && !(containsSub p.pageText "additional questions")

/-- Question text markers of the fallback structure check. -/
def fbQuestionIndicators : List String :=
  ["additional questions", "additional question",
   "what is your", "how many years", "please share",
   "please confirm", "willing to", "notice period",
   "are you comfortable", "have you completed", "do you have"]

/-- Fallback branch 3b condition: a question marker in the page text, no
contact-info or resume text, and enough visible radios, selects and
question labels (the fallback queries use only the form-element alternates
and count individual radios, not groups). -/
def fbStructureSignal (p : Page) : Bool :=
  fbQuestionIndicators.any (fun ind => containsSub p.pageText ind)
    && !(containsSub p.pageText "contact info")
    && !(containsSub p.pageText "resume")
    && ((p.radiosFormElement.filter (·.displayed)).length ≥ 2
        || (p.selectsFormElement.filter (·.displayed)).length ≥ 1)
    && (((p.labelsQMark ++ p.labelsFormElement).filter (·.displayed)).length ≥ 1)

/-- The per-session state of the step loop: the `completed_sections` set as
three flags, plus ghost counters of how often each section handler body
(`fill_contact_info`, `handle_resume_section`,
`handle_additional_questions`) was entered. -/
structure LoopSt where
  contactDone : Bool := false
  resumeDone : Bool := false
  questionsDone : Bool := false
  contactCalls : Nat := 0
  resumeCalls : Nat := 0
  questionsCalls : Nat := 0
deriving DecidableEq, Repr

/-- Run the contact handler and add contact to the completed set; every call
site of `fill_contact_info` inside the loop performs exactly this pair. -/
def invokeContact (s : LoopSt) : LoopSt :=
  { s with contactDone := true, contactCalls := s.contactCalls + 1 }

/-- Run the resume handler and add resume to the completed set. -/
def invokeResume (s : LoopSt) : LoopSt :=
  { s with resumeDone := true, resumeCalls := s.resumeCalls + 1 }

/-- Run the questions handler and add questions to the completed set. -/
def invokeQuestions (s : LoopSt) : LoopSt :=
  { s with questionsDone := true, questionsCalls := s.questionsCalls + 1 }

/-- The section-handling part of one iteration of `handle_easy_apply_form`:
the main page-type switch, and for the unknown classification the fallback
detection chain followed by the earliest-not-yet-completed last resort.
Each guarded branch runs its handler only when the section is not in the
completed set, exactly as in the source. -/
def handleStep (p : Page) (s : LoopSt) : LoopSt :=
  match detect_current_page_type p with
  | .contact => if !s.contactDone then invokeContact s else s
  | .resume => if !s.resumeDone then invokeResume s else s
  | .questions => if !s.questionsDone then invokeQuestions s else s
  | .review => s
  | .unknown =>
    if fbContactSignal p && !s.contactDone then invokeContact s
    else if fbResumeSignal p && !s.resumeDone then invokeResume s
    else if headingSignal p && !s.questionsDone then invokeQuestions s
    else if fbStructureSignal p && !s.questionsDone then invokeQuestions s
    else if !s.contactDone then invokeContact s
    else if !s.resumeDone then invokeResume s
    else if !s.questionsDone then invokeQuestions s
    else s

/-- Environment of one iteration of the step loop: what the driver and the
operator would answer at that step. `successAtStart` is the
`check_submission_success` probe at the top of the iteration;
`buttonFound`/`isSubmit` is the pair returned by
`find_and_click_next_button`; `pollSuccess` says whether any of the five
post-submit confirmation polls sees the success indicator; `manualAnswer`
and `sentAnswer` are the y answers to the two console prompts. -/
structure StepEnv where
  successAtStart : Bool := false
  page : Page := {}
  buttonFound : Bool := false
  isSubmit : Bool := false
  pollSuccess : Bool := false
  manualAnswer : Bool := false
  sentAnswer : Bool := false

/-- Result of the step loop: the boolean the source returns, the value of
`current_step` at exit, and the final session state. -/
structure LoopResult where
  success : Bool
  steps : Nat
  final : LoopSt
deriving DecidableEq, Repr

/-- The `while current_step < max_steps` loop of `handle_easy_apply_form`,
with `fuel = max_steps - current_step` as the structural measure: check the
success indicator, handle the detected section, then find and click the
next button; a missing button counts toward the consecutive-error budget of
three, whose exhaustion asks the operator; a clicked submit button polls
for confirmation and otherwise asks the operator; running out of steps
returns failure. -/
def stepLoopGo (env : Nat → StepEnv) : Nat → Nat → Nat → LoopSt → LoopResult
  | 0, currentStep, _, s => ⟨false, currentStep, s⟩
  | fuel + 1, currentStep, consecutiveErrors, s =>
    let e := env currentStep
    if e.successAtStart then ⟨true, currentStep + 1, s⟩
    else
      let s1 := handleStep e.page s
      if !e.buttonFound then
        if consecutiveErrors + 1 ≥ 3 then ⟨e.manualAnswer, currentStep + 1, s1⟩
        else stepLoopGo env fuel (currentStep + 1) (consecutiveErrors + 1) s1
      else if e.isSubmit then
        if e.pollSuccess then ⟨true, currentStep + 1, s1⟩
        else ⟨e.sentAnswer, currentStep + 1, s1⟩
      else stepLoopGo env fuel (currentStep + 1) 0 s1

/-- The step loop from a fresh session state, with a step budget. -/
def run_step_loop (maxSteps : Nat) (env : Nat → StepEnv) : LoopResult :=
  stepLoopGo env maxSteps 0 0 {}

/-- Model of `handle_easy_apply_form`: fail if the modal never appears,
otherwise run the step loop with the budget of 10 hard-coded in the
source. -/
def handle_easy_apply_form (modalAppeared : Bool) (env : Nat → StepEnv) : Bool :=
  if !modalAppeared then false else (run_step_loop 10 env).success

/-- A scraped job record; the empty string models a missing or falsy
`link`, exactly the `if not job.get(link)` test of the source. -/
structure Job where
  title : String
  company : String
  link : String
deriving DecidableEq

/-- A scored candidate, as consumed by `apply_to_jobs`; the score is in
hundredths. -/
structure Match where
  job : Job
  final_score : Int
deriving DecidableEq

/-- Outcome of one `_apply_to_job` call as seen by the batch loop: either
the returned pair, or an exception escaping to the per-job `except`. -/
inductive ApplyRes where
  | exc
  | ret (success : Bool) (appType : Option String)
deriving DecidableEq

/-- The aggregate counters built by `apply_to_jobs`; `processed` is a ghost
counter of loop iterations that ran (candidates reached before the cap
break). The per-job `details` list carries no counted information and is
omitted. -/
structure BatchResults where
  attempted : Nat := 0
  applied : Nat := 0
  failed : Nat := 0
  skipped : Nat := 0
  processed : Nat := 0
deriving DecidableEq, Repr

/-- Model of `matches.sort(key=lambda x: x[final_score], reverse=True)`:
the stable descending sort on scores. -/
def sortByScoreDesc (ms : List Match) : List Match :=
  ms.insertionSort (fun a b => b.final_score ≤ a.final_score)

/-- The `for idx, match in enumerate(matches, 1)` loop of `apply_to_jobs`:
break once `applied_count` reaches `max_apply`; below-threshold candidates
count as skipped; otherwise count an attempt and dispatch on the
`_apply_to_job` outcome (success with easy type counts applied and
consumes budget, a skipped type counts skipped, anything else — including
an exception — counts failed). -/
def batchGo (applyFn : Nat → Match → ApplyRes) (maxApply : Nat) (minScore : Int) :
    List Match → Nat → Nat → BatchResults → BatchResults
  | [], _, _, res => res
  | m :: rest, idx, appliedCount, res =>
    if maxApply ≤ appliedCount then res
    else
      let res0 := { res with processed := res.processed + 1 }
      if m.final_score < minScore then
        batchGo applyFn maxApply minScore rest (idx + 1) appliedCount
          { res0 with skipped := res0.skipped + 1 }
      else
        let res1 := { res0 with attempted := res0.attempted + 1 }
        match applyFn idx m with
        | .exc =>
          batchGo applyFn maxApply minScore rest (idx + 1) appliedCount
            { res1 with failed := res1.failed + 1 }
        | .ret success appType =>
          if success && appType == some "easy" then
            batchGo applyFn maxApply minScore rest (idx + 1) (appliedCount + 1)
              { res1 with applied := res1.applied + 1 }
          else if appType == some "skipped" then
            batchGo applyFn maxApply minScore rest (idx + 1) appliedCount
              { res1 with skipped := res1.skipped + 1 }
          else
            batchGo applyFn maxApply minScore rest (idx + 1) appliedCount
              { res1 with failed := res1.failed + 1 }

/-- Model of `apply_to_jobs`: sort descending by score, then run the batch
loop from zeroed counters (`idx` starts at 1 as in `enumerate(_, 1)`). -/
def apply_to_jobs (applyFn : Nat → Match → ApplyRes) (maxApply : Nat) (minScore : Int)
    (ms : List Match) : BatchResults :=
  batchGo applyFn maxApply minScore (sortByScoreDesc ms) 1 0 {}

/-- An apply-button candidate on a job page: visibility, stripped and
lowercased text, lowercased aria-label, and its click behaviour. -/
structure ApplyBtn where
  displayed : Bool
  text : String
  aria : String
  elem : Elem
deriving DecidableEq

/-- The job page as inspected by `find_apply_button` and
`check_external_application`: lowercased page source and the concatenation,
in source order, of the six apply-button selector queries. -/
structure JobPage where
  pageText : String := ""
  applyButtons : List ApplyBtn := []
deriving DecidableEq

/-- The external-application marker phrases. -/
def externalIndicators : List String :=
  ["apply on company site", "apply on external site",
   "continue to company site", "visit company website",
   "external application"]

/-- Model of `check_external_application`. -/
def check_external_application (jp : JobPage) : Bool :=
  externalIndicators.any (fun ind => containsSub jp.pageText ind)

/-- The Easy Apply match of the button scan: easy apply in the text or easy
in the aria-label. -/
def isEasyApplyBtn (b : ApplyBtn) : Bool :=
  containsSub b.text "easy apply" || containsSub b.aria "easy"

/-- The plain-apply match of the button scan: apply in text or aria-label,
and neither save nor follow in the text. -/
def isPlainApplyBtn (b : ApplyBtn) : Bool :=
  (containsSub b.text "apply" || containsSub b.aria "apply")
    && !(containsSub b.text "save") && !(containsSub b.text "follow")

/-- The element scan of `find_apply_button`: skip non-displayed elements;
the first displayed one matching the easy condition yields the easy tag,
otherwise a displayed plain-apply match yields the external tag. -/
def scanApplyButtons : List ApplyBtn → Option (ApplyBtn × String)
  | [] => none
  | b :: rest =>
    if !b.displayed then scanApplyButtons rest
    else if isEasyApplyBtn b then some (b, "easy")
    else if isPlainApplyBtn b then some (b, "external")
    else scanApplyButtons rest

/-- Model of `find_apply_button`: an external marker phrase short-circuits
to (None, external); otherwise scan the selector results. -/
def find_apply_button (jp : JobPage) : Option ApplyBtn × Option String :=
  if check_external_application jp then (none, some "external")
  else
    match scanApplyButtons jp.applyButtons with
    | some (b, t) => (some b, some t)
    | none => (none, none)

/-- Per-job environment of `_apply_to_job`: whether navigation or the
ready-state wait raises, the job page snapshot, and the outcome of the form
flow once started. -/
structure JobEnv where
  navThrows : Bool := false
  page : JobPage := {}
  formResult : Bool := false
deriving DecidableEq

/-- Outcome of `_apply_to_job` plus the ghost flag recording whether
`handle_easy_apply_form` was invoked. -/
structure JobAttempt where
  success : Bool
  appType : Option String
  flowStarted : Bool
deriving DecidableEq, Repr

/-- Model of `_apply_to_job`: a falsy link fails immediately; a navigation
exception is caught and fails; a missing button is skipped exactly when the
search reported the external tag; a found non-easy button is skipped; a
failed click on the easy button fails; otherwise the form flow runs and its
result is returned with the easy tag. -/
def applyToJobOnce (env : JobEnv) (job : Job) : JobAttempt :=
  if job.link == "" then ⟨false, none, false⟩
  else if env.navThrows then ⟨false, none, false⟩
  else
    match find_apply_button env.page with
    | (none, bt) => ⟨false, if bt == some "external" then some "skipped" else none, false⟩
    | (some b, bt) =>
      if bt != some "easy" then ⟨false, some "skipped", false⟩
      else if !(safe_click b.elem) then ⟨false, none, false⟩
      else ⟨env.formResult, some "easy", true⟩

/-- Lift `applyToJobOnce` to the oracle shape consumed by the batch loop
(the model raises no exceptions of its own). -/
def oracleOf (env : JobEnv) : Nat → Match → ApplyRes :=
  fun _ m =>
    let a := applyToJobOnce env m.job
    ApplyRes.ret a.success a.appType

/-- The parameter names of `LinkedInJobApplier.__init__` as written in
`src/app/applier/job_applier.py`. -/
def applierInitParamNames : List String :=
  ["self", "session", "resume_data", "resume_path", "max_apply", "min_score"]

/-- The keyword arguments `src/app/server.py` passes when constructing the
applier in `_apply_batch_jobs`. -/
def serverApplierCallKeywords : List String :=
  ["session", "resume_data", "resume_path", "max_apply", "min_score",
   "questions_callback"]

/-- The timeout, in seconds, of the wait loop inside the
`questions_callback` that `server.py` defines. -/
def serverQuestionsTimeout : Nat := 300

/-- Observable effects of one run of `handle_additional_questions`. -/
structure QuestionsTrace where
  consolePrompted : Bool
  callbackInvoked : Bool
deriving DecidableEq, Repr

/-- Model of `handle_additional_questions` in
`src/app/applier/job_applier.py`: it prints a banner, blocks on a console
`input()`, and returns True; no callback is consulted anywhere in its
body (nor stored by the constructor). -/
def handle_additional_questions : Bool × QuestionsTrace :=
  (true, ⟨true, false⟩)

/-- A page with both a visible email input and a visible primary submit
button, the synthetic fixture of the priority-ordering property. -/
def demoContactReviewPage : Page :=
  { emailFields := [⟨true, ""⟩],
    primaryButtons := [⟨true, "submit application", "submit application"⟩] }

/-- A page whose only signal is a visible empty email input. -/
def demoContactPage : Page :=
  { emailFields := [⟨true, ""⟩] }

/-- A stalled-transition environment: the classifier data reports the
contact page at every step and a non-submit next button is always found. -/
def demoContactEnv : Nat → StepEnv :=
  fun _ => { page := demoContactPage, buttonFound := true }

/-- An environment in which every probe fails: empty page (classified
unknown), no button ever found, all console answers negative. -/
def demoIdleEnv : Nat → StepEnv :=
  fun _ => {}

/-- Five candidates, all with links and scores at or above 60. -/
def fiveQualifyingMatches : List Match :=
  [⟨⟨"job a", "co a", "url a"⟩, 80⟩, ⟨⟨"job b", "co b", "url b"⟩, 90⟩,
   ⟨⟨"job c", "co c", "url c"⟩, 70⟩, ⟨⟨"job d", "co d", "url d"⟩, 85⟩,
   ⟨⟨"job e", "co e", "url e"⟩, 95⟩]

/-- A qualifying candidate whose job record has no URL. -/
def noLinkMatch : Match := ⟨⟨"job f", "co f", ""⟩, 90⟩

/-- A profile with a non-empty email and digits-only phone. -/
def demoProfile : Profile := ⟨"user@mail.com", "5551234567"⟩

/-- A contact page whose email field was pre-filled by the site and whose
phone field is still empty. -/
def demoContactFilledPage : Page :=
  { emailFields := [⟨true, "site@mail.com"⟩], phoneFields := [⟨true, ""⟩] }

/-- A job page showing one visible apply button that is neither an Easy
Apply button nor a save or follow button, with no external marker phrase in
the page text. -/
def demoExternalJobEnv : JobEnv :=
  { page := { applyButtons := [⟨true, "apply now", "apply now", ⟨false, false, false⟩⟩] } }

/-- A job with a URL, used with `demoExternalJobEnv`. -/
def demoExternalJob : Job := ⟨"job g", "co g", "url g"⟩

/-- Invariant relating the completed-section flags to the ghost invocation
counters: a handler not yet marked done has never run, and no handler ran
more than once. -/
def counterInv (s : LoopSt) : Prop :=
  (s.contactDone = false → s.contactCalls = 0) ∧ s.contactCalls ≤ 1 ∧
  (s.resumeDone = false → s.resumeCalls = 0) ∧ s.resumeCalls ≤ 1 ∧
  (s.questionsDone = false → s.questionsCalls = 0) ∧ s.questionsCalls ≤ 1

/-- C7: the click fallback chain tries (a) direct click, (b) programmatic
click, (c) scroll then programmatic click in that order, returns true at
the first strategy that does not throw, and returns false exactly when all
three throw; in particular an element throwing on the direct click but
accepting a programmatic click is reported clicked. -/
theorem safe_click_fallback_chain :
    ∀ t1 t2 t3 : Bool,
      (safe_click ⟨t1, t2, t3⟩ = false ↔ (t1 = true ∧ t2 = true ∧ t3 = true)) ∧
      (firstNonThrow (strategyThrowList ⟨t1, t2, t3⟩) =
        if t1 = false then some 0
        else if t2 = false then some 1
        else if t3 = false then some 2
        else none) ∧
      safe_click ⟨true, false, true⟩ = true := by
  decide

/-- C6: the callback-driven questions mode is not wired up: `server.py`
passes a `questions_callback` keyword that the applier constructor does not
accept, and `handle_additional_questions` never invokes a callback — it
blocks on a console prompt and returns True; the 300-unit timeout exists
only inside the callback that `server.py` defines. -/
theorem questions_callback_never_wired :
    ("questions_callback" ∈ serverApplierCallKeywords ∧
      "questions_callback" ∉ applierInitParamNames) ∧
    (handle_additional_questions.2.callbackInvoked = false ∧
      handle_additional_questions.2.consolePrompted = true ∧
      handle_additional_questions.1 = true) ∧
    serverQuestionsTimeout = 300 := by
  decide

/-- C3: the classifier applies its heuristics in strict priority order with
the first match winning — contact before resume before the questions
signals before review; in particular any page with a visible email input
classifies as contact even when a visible primary submit button is also
present. -/
theorem page_classification_priority (p : Page) (hdom : p.domError = false) :
    (contactSignal p = true → detect_current_page_type p = SectionKind.contact) ∧
    (contactSignal p = false → resumeSignal p = true →
      detect_current_page_type p = SectionKind.resume) ∧
    (contactSignal p = false → resumeSignal p = false →
      (headingSignal p || textIndicatorSignal p || structureSignal p
        || nonContactInputSignal p) = true →
      detect_current_page_type p = SectionKind.questions) ∧
    (contactSignal p = false → resumeSignal p = false → headingSignal p = false →
      textIndicatorSignal p = false → structureSignal p = false →
      nonContactInputSignal p = false → reviewSignal p = true →
      detect_current_page_type p = SectionKind.review) ∧
    (p.emailFields.any (·.displayed) = true → reviewSignal p = true →
      detect_current_page_type p = SectionKind.contact) := by
  refine ⟨?_, ?_, ?_, ?_, ?_⟩
  · intro h1
    simp [detect_current_page_type, hdom, h1]
  · intro h1 h2
    simp [detect_current_page_type, hdom, h1, h2]
  · intro h1 h2 h3
    rcases Bool.or_eq_true_iff.mp h3 with h | h4
    · rcases Bool.or_eq_true_iff.mp h with h | h5
      · rcases Bool.or_eq_true_iff.mp h with h6 | h7
        · simp [detect_current_page_type, hdom, h1, h2, h6]
        · by_cases h6 : headingSignal p = true <;>
            simp [detect_current_page_type, hdom, h1, h2, h6, h7]
      · by_cases h6 : headingSignal p = true <;>
          by_cases h7 : textIndicatorSignal p = true <;>
          simp [detect_current_page_type, hdom, h1, h2, h5, h6, h7]
    · by_cases h5 : headingSignal p = true <;>
        by_cases h6 : textIndicatorSignal p = true <;>
        by_cases h7 : structureSignal p = true <;>
        simp [detect_current_page_type, hdom, h1, h2, h4, h5, h6, h7]
  · intro h1 h2 h3 h4 h5 h6 h7
    simp [detect_current_page_type, hdom, h1, h2, h3, h4, h5, h6, h7]
  · intro hemail h7
    have h1 : contactSignal p = true := by
      simp only [contactSignal, List.any_append, Bool.or_eq_true]
      exact Or.inl hemail
    simp [detect_current_page_type, hdom, h1]

/-- Witness for C3 at the synthetic fixture: a page exposing both a visible
email input and a visible primary submit button classifies as contact. -/
theorem page_classification_priority_witness :
    demoContactReviewPage.domError = false ∧
    demoContactReviewPage.emailFields.any (·.displayed) = true ∧
    reviewSignal demoContactReviewPage = true ∧
    detect_current_page_type demoContactReviewPage = SectionKind.contact :=
  ⟨rfl, by decide, by decide,
    (page_classification_priority demoContactReviewPage rfl).2.2.2.2 (by decide) (by decide)⟩

/-- C8: the contact handler never overwrites a field that already has a
non-empty value, and it populates a field from the profile only when the
field is currently empty (and displayed, with a non-empty profile value). -/
theorem contact_fill_preserves_nonempty (prof : Profile) (p : Page) :
    (∀ f rest, p.emailFields = f :: rest → f.value ≠ "" →
      (fill_contact_info prof p).emailFields = p.emailFields) ∧
    (∀ f rest, p.phoneFields = f :: rest → f.value ≠ "" →
      (fill_contact_info prof p).phoneFields = p.phoneFields) ∧
    (∀ f rest, p.emailFields = f :: rest → f.value = "" → f.displayed = true →
      prof.email ≠ "" →
      (fill_contact_info prof p).emailFields = { f with value := prof.email } :: rest) ∧
    (∀ f rest, p.phoneFields = f :: rest → f.value = "" → f.displayed = true →
      prof.phone ≠ "" →
      (fill_contact_info prof p).phoneFields = { f with value := prof.phone } :: rest) := by
  refine ⟨?_, ?_, ?_, ?_⟩ <;> intro f rest hf hv <;>
    simp [fill_contact_info, fillFirstEmpty, hf, hv]
  · intro hd hp
    simp [hd, hp]
  · intro hd hp
    simp [hd, hp]

/-- Witness for C8: with a pre-filled email field and an empty phone field,
the email value is left untouched and the phone is populated from the
profile. -/
theorem contact_fill_preserves_nonempty_witness :
    (fill_contact_info demoProfile demoContactFilledPage).emailFields
        = demoContactFilledPage.emailFields ∧
    (fill_contact_info demoProfile demoContactFilledPage).phoneFields
        = [⟨true, "5551234567"⟩] :=
  ⟨(contact_fill_preserves_nonempty demoProfile demoContactFilledPage).1
      ⟨true, "site@mail.com"⟩ [] rfl (by decide),
    (contact_fill_preserves_nonempty demoProfile demoContactFilledPage).2.2.2
      ⟨true, ""⟩ [] rfl rfl rfl (by decide)⟩

/-- One handling step preserves the call-counter invariant: every handler
call site is guarded by its completed flag and sets it. -/
theorem handleStep_counterInv (p : Page) (s : LoopSt) (h : counterInv s) :
    counterInv (handleStep p s) := by
  obtain ⟨h1, h2, h3, h4, h5, h6⟩ := h
  unfold counterInv
  unfold handleStep
  cases hd : detect_current_page_type p <;>
    simp only [invokeContact, invokeResume, invokeQuestions] <;>
    (repeat' split) <;>
    refine ⟨?_, ?_, ?_, ?_, ?_, ?_⟩ <;>
    simp_all

/-- The step loop preserves the call-counter invariant. -/
theorem stepLoopGo_counterInv (env : Nat → StepEnv) :
    ∀ (fuel cs ce : Nat) (s : LoopSt), counterInv s →
      counterInv (stepLoopGo env fuel cs ce s).final := by
  intro fuel
  induction fuel with
  | zero => intro cs ce s h; exact h
  | succ n ih =>
    intro cs ce s h
    have hs1 := handleStep_counterInv (env cs).page s h
    simp only [stepLoopGo]
    split
    · exact h
    · split
      · split
        · exact hs1
        · exact ih _ _ _ hs1
      · split
        · split
          · exact hs1
          · exact hs1
        · exact ih _ _ _ hs1

/-- C1: over any run of the step loop, each of the contact, resume and
questions handlers is entered at most once, however many steps run and
whatever the classifier reports; and in the stalled-transition scenario
where the classifier data yields contact on two consecutive steps, the
contact handler fires exactly once. -/
theorem handlers_invoked_at_most_once :
    (∀ (env : Nat → StepEnv) (maxSteps : Nat),
      (run_step_loop maxSteps env).final.contactCalls ≤ 1 ∧
      (run_step_loop maxSteps env).final.resumeCalls ≤ 1 ∧
      (run_step_loop maxSteps env).final.questionsCalls ≤ 1) ∧
    (∀ env : Nat → StepEnv,
      detect_current_page_type (env 0).page = SectionKind.contact →
      detect_current_page_type (env 1).page = SectionKind.contact →
      (env 0).successAtStart = false → (env 1).successAtStart = false →
      (env 0).buttonFound = true → (env 0).isSubmit = false →
      (run_step_loop 2 env).final.contactCalls = 1) := by
  constructor
  · intro env maxSteps
    have h0 : counterInv ({} : LoopSt) := by
      refine ⟨fun _ => rfl, ?_, fun _ => rfl, ?_, fun _ => rfl, ?_⟩ <;> decide
    have h := stepLoopGo_counterInv env maxSteps 0 0 {} h0
    exact ⟨h.2.1, h.2.2.2.1, h.2.2.2.2.2⟩
  · intro env h0 h1 hs0 hs1 hb0 hsub0
    cases hbf : (env 1).buttonFound <;>
      cases his : (env 1).isSubmit <;>
      cases hps : (env 1).pollSuccess <;>
      simp [run_step_loop, stepLoopGo, hs0, hs1, hb0, hsub0, hbf, his, hps,
        handleStep, h0, h1, invokeContact]

/-- Witness for C1: with the classifier data reporting contact at every
step, a two-step run fires the contact handler exactly once, and longer
runs never push any counter past one. -/
theorem handlers_invoked_at_most_once_witness :
    (run_step_loop 2 demoContactEnv).final.contactCalls = 1 ∧
    (run_step_loop 7 demoContactEnv).final.contactCalls ≤ 1 :=
  ⟨handlers_invoked_at_most_once.2 demoContactEnv (by decide) (by decide)
      rfl rfl rfl rfl,
    (handlers_invoked_at_most_once.1 demoContactEnv 7).1⟩

/-- The step counter of the loop never exceeds the starting step plus the
remaining fuel. -/
theorem stepLoopGo_steps_le (env : Nat → StepEnv) :
    ∀ (fuel cs ce : Nat) (s : LoopSt),
      (stepLoopGo env fuel cs ce s).steps ≤ cs + fuel := by
  intro fuel
  induction fuel with
  | zero => intro cs ce s; simp [stepLoopGo]
  | succ n ih =>
    intro cs ce s
    simp only [stepLoopGo]
    split
    · simp
    · split
      · split
        · simp
        · exact le_trans (ih _ _ _) (by omega)
      · split
        · split <;> simp
        · exact le_trans (ih _ _ _) (by omega)

/-- Without a success indicator and with all console answers negative, the
step loop can only return failure. -/
theorem stepLoopGo_no_success (env : Nat → StepEnv)
    (hs : ∀ n, (env n).successAtStart = false)
    (hp : ∀ n, (env n).pollSuccess = false)
    (hm : ∀ n, (env n).manualAnswer = false)
    (ha : ∀ n, (env n).sentAnswer = false) :
    ∀ (fuel cs ce : Nat) (s : LoopSt),
      (stepLoopGo env fuel cs ce s).success = false := by
  intro fuel
  induction fuel with
  | zero => intro cs ce s; simp [stepLoopGo]
  | succ n ih =>
    intro cs ce s
    cases hb : (env cs).buttonFound
    · by_cases hce : ce + 1 ≥ 3
      · simp [stepLoopGo, hs cs, hb, hce, hm cs]
      · simp [stepLoopGo, hs cs, hb, hce]
        exact ih _ _ _
    · cases hsub : (env cs).isSubmit
      · simp [stepLoopGo, hs cs, hb, hsub]
        exact ih _ _ _
      · simp [stepLoopGo, hs cs, hb, hsub, hp cs, ha cs]

/-- C2: the step loop terminates within its step budget for every
environment; in the scenario where the classifier always reports unknown
and the button search always fails (and the operator does not claim a
manual submission), a budget of 3 ends in failure after exactly 3 steps;
and exhausting any budget without the success indicator (and without an
affirmative operator answer) yields a failure result. -/
theorem step_loop_respects_budgets :
    (∀ (maxSteps : Nat) (env : Nat → StepEnv),
      (run_step_loop maxSteps env).steps ≤ maxSteps) ∧
    (∀ env : Nat → StepEnv,
      (∀ n, detect_current_page_type (env n).page = SectionKind.unknown) →
      (∀ n, (env n).successAtStart = false) →
      (∀ n, (env n).buttonFound = false) →
      (∀ n, (env n).manualAnswer = false) →
      (run_step_loop 3 env).success = false ∧ (run_step_loop 3 env).steps = 3) ∧
    (∀ (maxSteps : Nat) (env : Nat → StepEnv),
      (∀ n, (env n).successAtStart = false) →
      (∀ n, (env n).pollSuccess = false) →
      (∀ n, (env n).manualAnswer = false) →
      (∀ n, (env n).sentAnswer = false) →
      (run_step_loop maxSteps env).success = false) := by
  refine ⟨?_, ?_, ?_⟩
  · intro maxSteps env
    simpa using stepLoopGo_steps_le env maxSteps 0 0 {}
  · intro env hu hs hb hm
    constructor <;>
      simp [run_step_loop, stepLoopGo, hs 0, hs 1, hs 2, hb 0, hb 1, hb 2, hm 2]
  · intro maxSteps env hs hp hm ha
    exact stepLoopGo_no_success env hs hp hm ha maxSteps 0 0 {}

/-- Witness for C2 at the always-failing environment: the three-step run
fails after exactly three steps, and a ten-step run cannot succeed. -/
theorem step_loop_respects_budgets_witness :
    (run_step_loop 3 demoIdleEnv).success = false ∧
    (run_step_loop 3 demoIdleEnv).steps = 3 ∧
    (run_step_loop 10 demoIdleEnv).steps ≤ 10 ∧
    (run_step_loop 10 demoIdleEnv).success = false :=
  ⟨(step_loop_respects_budgets.2.1 demoIdleEnv (fun _ => rfl) (fun _ => rfl)
      (fun _ => rfl) (fun _ => rfl)).1,
    (step_loop_respects_budgets.2.1 demoIdleEnv (fun _ => rfl) (fun _ => rfl)
      (fun _ => rfl) (fun _ => rfl)).2,
    step_loop_respects_budgets.1 10 demoIdleEnv,
    step_loop_respects_budgets.2.2 10 demoIdleEnv (fun _ => rfl) (fun _ => rfl)
      (fun _ => rfl) (fun _ => rfl)⟩

/-- Each iteration of the batch loop adds one to `processed` and one to
exactly one of the applied, skipped and failed counters. -/
theorem batchGo_counts (applyFn : Nat → Match → ApplyRes) (maxApply : Nat) (minScore : Int) :
    ∀ (l : List Match) (idx ac : Nat) (res : BatchResults),
      (batchGo applyFn maxApply minScore l idx ac res).applied
        + (batchGo applyFn maxApply minScore l idx ac res).skipped
        + (batchGo applyFn maxApply minScore l idx ac res).failed
        + res.processed
      = (batchGo applyFn maxApply minScore l idx ac res).processed
        + res.applied + res.skipped + res.failed := by
  intro l
  induction l with
  | nil => intro idx ac res; simp [batchGo]; omega
  | cons m rest ih =>
    intro idx ac res
    simp only [batchGo]
    split
    · omega
    · split
      · have h := ih (idx + 1) ac { res with processed := res.processed + 1, skipped := res.skipped + 1 }
        simp only [] at h ⊢
        omega
      · split
        · have h := ih (idx + 1) ac { res with processed := res.processed + 1, attempted := res.attempted + 1, failed := res.failed + 1 }
          simp only [] at h ⊢
          omega
        · split
          · have h := ih (idx + 1) (ac + 1) { res with processed := res.processed + 1, attempted := res.attempted + 1, applied := res.applied + 1 }
            simp only [] at h ⊢
            omega
          · split
            · have h := ih (idx + 1) ac { res with processed := res.processed + 1, attempted := res.attempted + 1, skipped := res.skipped + 1 }
              simp only [] at h ⊢
              omega
            · have h := ih (idx + 1) ac { res with processed := res.processed + 1, attempted := res.attempted + 1, failed := res.failed + 1 }
              simp only [] at h ⊢
              omega

/-- C9: every candidate the batch loop processes increments exactly one of
the applied, skipped and failed counters, so at the end of any run their
sum equals the number of candidates processed. -/
theorem batch_counters_partition :
    ∀ (applyFn : Nat → Match → ApplyRes) (maxApply : Nat) (minScore : Int)
      (ms : List Match),
      (apply_to_jobs applyFn maxApply minScore ms).applied
        + (apply_to_jobs applyFn maxApply minScore ms).skipped
        + (apply_to_jobs applyFn maxApply minScore ms).failed
      = (apply_to_jobs applyFn maxApply minScore ms).processed := by
  intro applyFn maxApply minScore ms
  have h := batchGo_counts applyFn maxApply minScore (sortByScoreDesc ms) 1 0 {}
  simpa [apply_to_jobs] using h

/-- C5 counterexample: with five qualifying matches, a cap of 2 and every
attempt failing, the batch loop makes five apply attempts, not two — the
cap bounds successes, not attempts. -/
theorem max_applications_cap_cex :
    (apply_to_jobs (fun _ _ => ApplyRes.ret false none) 2 60 fiveQualifyingMatches).attempted = 5 ∧
    ¬((apply_to_jobs (fun _ _ => ApplyRes.ret false none) 2 60 fiveQualifyingMatches).attempted = 2) := by
  decide

/-- The applied counter can grow by at most the remaining success budget. -/
theorem batchGo_applied_le (applyFn : Nat → Match → ApplyRes) (maxApply : Nat) (minScore : Int) :
    ∀ (l : List Match) (idx ac : Nat) (res : BatchResults),
      (batchGo applyFn maxApply minScore l idx ac res).applied ≤ res.applied + (maxApply - ac) := by
  intro l
  induction l with
  | nil => intro idx ac res; simp [batchGo]
  | cons m rest ih =>
    intro idx ac res
    simp only [batchGo]
    split
    · omega
    · split
      · have h := ih (idx + 1) ac { res with processed := res.processed + 1, skipped := res.skipped + 1 }
        simp only [] at h ⊢
        omega
      · split
        · have h := ih (idx + 1) ac { res with processed := res.processed + 1, attempted := res.attempted + 1, failed := res.failed + 1 }
          simp only [] at h ⊢
          omega
        · split
          · have h := ih (idx + 1) (ac + 1) { res with processed := res.processed + 1, attempted := res.attempted + 1, applied := res.applied + 1 }
            simp only [] at h ⊢
            omega
          · split
            · have h := ih (idx + 1) ac { res with processed := res.processed + 1, attempted := res.attempted + 1, skipped := res.skipped + 1 }
              simp only [] at h ⊢
              omega
            · have h := ih (idx + 1) ac { res with processed := res.processed + 1, attempted := res.attempted + 1, failed := res.failed + 1 }
              simp only [] at h ⊢
              omega

/-- When every attempt succeeds as Easy Apply and every remaining candidate
qualifies, the loop spends exactly the remaining success budget in
attempts and in applications. -/
theorem batchGo_all_success (minScore : Int) :
    ∀ (l : List Match) (idx ac maxApply : Nat) (res : BatchResults),
      (∀ m ∈ l, minScore ≤ m.final_score) →
      maxApply ≤ ac + l.length →
      (batchGo (fun _ _ => ApplyRes.ret true (some "easy")) maxApply minScore l idx ac res).attempted
          = res.attempted + (maxApply - ac) ∧
      (batchGo (fun _ _ => ApplyRes.ret true (some "easy")) maxApply minScore l idx ac res).applied
          = res.applied + (maxApply - ac) := by
  intro l
  induction l with
  | nil =>
    intro idx ac maxApply res hq hlen
    simp [batchGo]
    simp at hlen
    omega
  | cons m rest ih =>
    intro idx ac maxApply res hq hlen
    simp only [batchGo]
    split
    · omega
    · have hm : minScore ≤ m.final_score := hq m (List.mem_cons_self m rest)
      rw [if_neg (not_lt.mpr hm)]
      have h := ih (idx + 1) (ac + 1) maxApply
        { res with processed := res.processed + 1, attempted := res.attempted + 1, applied := res.applied + 1 }
        (fun x hx => hq x (List.mem_cons_of_mem _ hx))
        (by simp at hlen ⊢; omega)
      simp only [List.length_cons] at hlen
      simp at h ⊢
      omega

/-- C5 amended: the max-applications cap bounds successful applications —
the loop breaks only once `applied_count` reaches the cap — so the applied
count never exceeds `max_apply`; and when every attempt succeeds as an
Easy Apply application and at least `max_apply` candidates qualify,
exactly `max_apply` apply attempts occur. Failed or skipped attempts do
not consume the budget, so in general more than `max_apply` attempts can
happen. -/
theorem max_applications_cap_amended :
    (∀ (applyFn : Nat → Match → ApplyRes) (maxApply : Nat) (minScore : Int) (ms : List Match),
      (apply_to_jobs applyFn maxApply minScore ms).applied ≤ maxApply) ∧
    (∀ (maxApply : Nat) (minScore : Int) (ms : List Match),
      (∀ m ∈ ms, minScore ≤ m.final_score) →
      maxApply ≤ ms.length →
      (apply_to_jobs (fun _ _ => ApplyRes.ret true (some "easy")) maxApply minScore ms).attempted
          = maxApply ∧
      (apply_to_jobs (fun _ _ => ApplyRes.ret true (some "easy")) maxApply minScore ms).applied
          = maxApply) := by
  constructor
  · intro applyFn maxApply minScore ms
    have h := batchGo_applied_le applyFn maxApply minScore (sortByScoreDesc ms) 1 0 {}
    simp [apply_to_jobs] at h ⊢
    omega
  · intro maxApply minScore ms hq hlen
    have hq2 : ∀ m ∈ sortByScoreDesc ms, minScore ≤ m.final_score := by
      intro m hm
      exact hq m ((List.perm_insertionSort _ ms).mem_iff.mp hm)
    have hlen2 : maxApply ≤ 0 + (sortByScoreDesc ms).length := by
      have hp := (List.perm_insertionSort
        (fun a b : Match => b.final_score ≤ a.final_score) ms).length_eq
      simp only [sortByScoreDesc, hp, Nat.zero_add]
      exact hlen
    have h := batchGo_all_success minScore (sortByScoreDesc ms) 1 0 maxApply {} hq2 hlen2
    simp at h
    simpa [apply_to_jobs] using h

/-- Witness for C5 amended at the concrete fixture: five qualifying
matches, a cap of 2, all attempts succeeding — exactly two attempts and two
applications. -/
theorem max_applications_cap_amended_witness :
    (∀ m ∈ fiveQualifyingMatches, (60 : Int) ≤ m.final_score) ∧
    2 ≤ fiveQualifyingMatches.length ∧
    (apply_to_jobs (fun _ _ => ApplyRes.ret true (some "easy")) 2 60 fiveQualifyingMatches).attempted
        = 2 ∧
    (apply_to_jobs (fun _ _ => ApplyRes.ret true (some "easy")) 2 60 fiveQualifyingMatches).applied
        = 2 :=
  ⟨by decide, by decide,
    (max_applications_cap_amended.2 2 60 fiveQualifyingMatches (by decide) (by decide)).1,
    (max_applications_cap_amended.2 2 60 fiveQualifyingMatches (by decide) (by decide)).2⟩

/-- C4 counterexample: a qualifying candidate whose job record has no URL
is counted as failed, not skipped — `_apply_to_job` returns a plain failure
for a falsy link and the batch loop books that under the failed counter. -/
theorem no_url_counted_failed_cex :
    (apply_to_jobs (oracleOf {}) 10 60 [noLinkMatch]).skipped = 0 ∧
    (apply_to_jobs (oracleOf {}) 10 60 [noLinkMatch]).failed = 1 := by
  decide

/-- C4 amended: a candidate at or above the threshold whose job has no URL
is recorded as Failed (not Skipped) — the skipped counter stays at zero and
the failed counter increments; below-threshold candidates are the ones
recorded as Skipped. -/
theorem no_url_recorded_failed (env : JobEnv) (m : Match) (maxApply : Nat) (minScore : Int)
    (hlink : m.job.link = "") (hscore : minScore ≤ m.final_score) (hcap : 0 < maxApply) :
    apply_to_jobs (oracleOf env) maxApply minScore [m]
      = { attempted := 1, applied := 0, failed := 1, skipped := 0, processed := 1 } := by
  have hsort : sortByScoreDesc [m] = [m] := by
    simp [sortByScoreDesc, List.insertionSort]
  have hcap2 : ¬(maxApply ≤ 0) := by omega
  simp [apply_to_jobs, hsort, batchGo, hcap2, not_lt.mpr hscore, oracleOf,
    applyToJobOnce, hlink]

/-- Witness for C4 amended at the concrete no-URL candidate. -/
theorem no_url_recorded_failed_witness :
    noLinkMatch.job.link = "" ∧ (60 : Int) ≤ noLinkMatch.final_score ∧ 0 < 10 ∧
    apply_to_jobs (oracleOf {}) 10 60 [noLinkMatch]
      = { attempted := 1, applied := 0, failed := 1, skipped := 0, processed := 1 } :=
  ⟨rfl, by decide, by decide,
    no_url_recorded_failed {} noLinkMatch 10 60 rfl (by decide) (by decide)⟩

/-- When no displayed button matches the Easy Apply condition but some
displayed button matches the plain-apply condition, the scan reports the
external tag. -/
theorem scanApplyButtons_external :
    ∀ bs : List ApplyBtn,
      (∀ b ∈ bs, ¬(b.displayed = true ∧ isEasyApplyBtn b = true)) →
      (∃ b ∈ bs, b.displayed = true ∧ isPlainApplyBtn b = true) →
      ∃ b, scanApplyButtons bs = some (b, "external") := by
  intro bs
  induction bs with
  | nil => intro _ h; simp at h
  | cons b rest ih =>
    intro hno hex
    cases hd : b.displayed
    · have : ∃ x ∈ rest, x.displayed = true ∧ isPlainApplyBtn x = true := by
        rcases hex with ⟨x, hx, hxd, hxp⟩
        rcases List.mem_cons.mp hx with rfl | hxr
        · rw [hd] at hxd; cases hxd
        · exact ⟨x, hxr, hxd, hxp⟩
      rcases ih (fun x hx => hno x (List.mem_cons_of_mem _ hx)) this with ⟨w, hw⟩
      exact ⟨w, by simp [scanApplyButtons, hd, hw]⟩
    · have heasy : isEasyApplyBtn b = false := by
        rcases h : isEasyApplyBtn b
        · rfl
        · exact absurd ⟨hd, h⟩ (hno b (List.mem_cons_self b rest))
      cases hp : isPlainApplyBtn b
      · have : ∃ x ∈ rest, x.displayed = true ∧ isPlainApplyBtn x = true := by
          rcases hex with ⟨x, hx, hxd, hxp⟩
          rcases List.mem_cons.mp hx with rfl | hxr
          · rw [hp] at hxp; cases hxp
          · exact ⟨x, hxr, hxd, hxp⟩
        rcases ih (fun x hx => hno x (List.mem_cons_of_mem _ hx)) this with ⟨w, hw⟩
        exact ⟨w, by simp [scanApplyButtons, hd, heasy, hp, hw]⟩
      · exact ⟨b, by simp [scanApplyButtons, hd, heasy, hp]⟩

/-- C10: a job page showing a visible apply button that is not an Easy
Apply button (and not a save or follow button) is skipped without ever
starting the application form flow, even when no external marker phrase is
present; the batch loop books the outcome under the skipped counter. -/
theorem non_easy_apply_button_skipped (env : JobEnv) (job : Job)
    (hlink : job.link ≠ "") (hnav : env.navThrows = false)
    (hmarker : check_external_application env.page = false)
    (hnoeasy : ∀ b ∈ env.page.applyButtons, ¬(b.displayed = true ∧ isEasyApplyBtn b = true))
    (hsome : ∃ b ∈ env.page.applyButtons, b.displayed = true ∧ isPlainApplyBtn b = true) :
    applyToJobOnce env job = ⟨false, some "skipped", false⟩ ∧
    (apply_to_jobs (oracleOf env) 1 0 [⟨job, 50⟩]).skipped = 1 ∧
    (apply_to_jobs (oracleOf env) 1 0 [⟨job, 50⟩]).applied = 0 ∧
    (apply_to_jobs (oracleOf env) 1 0 [⟨job, 50⟩]).failed = 0 := by
  rcases scanApplyButtons_external env.page.applyButtons hnoeasy hsome with ⟨b, hscan⟩
  have hfind : find_apply_button env.page = (some b, some "external") := by
    simp [find_apply_button, hmarker, hscan]
  have honce : applyToJobOnce env job = ⟨false, some "skipped", false⟩ := by
    simp [applyToJobOnce, hlink, hnav, hfind]
  refine ⟨honce, ?_, ?_, ?_⟩ <;>
    simp [apply_to_jobs, sortByScoreDesc, List.insertionSort, batchGo, oracleOf, honce]

/-- Witness for C10 at a page whose only button is a visible generic apply
button. -/
theorem non_easy_apply_button_skipped_witness :
    demoExternalJob.link ≠ "" ∧
    check_external_application demoExternalJobEnv.page = false ∧
    applyToJobOnce demoExternalJobEnv demoExternalJob = ⟨false, some "skipped", false⟩ ∧
    (apply_to_jobs (oracleOf demoExternalJobEnv) 1 0 [⟨demoExternalJob, 50⟩]).skipped = 1 :=
  ⟨by decide, by decide,
    (non_easy_apply_button_skipped demoExternalJobEnv demoExternalJob (by decide) rfl
      (by decide) (by decide) (by decide)).1,
    (non_easy_apply_button_skipped demoExternalJobEnv demoExternalJob (by decide) rfl
      (by decide) (by decide) (by decide)).2.1⟩
